import Mathlib

/-!
Verification model of the Universal Data Converter format-normalization
core (src/app.py).  The decoders map parsed source data to lists of
DataFrames (the TableSet), and the encoder df_to_bytes maps a TableSet and
a destination tag to an output payload, following the Python source
line by line.

Modelling conventions, stated once here:
* Python None is modelled by Json.null and the pandas missing value
  (the float NaN) by Json.nan, whose Python str rendering is the text
  nan; apart from that marker, numbers are modelled as integers, since
  no claim under study depends on general floating point arithmetic.
* External library calls (json.loads, the pandas constructors and parsers,
  xml.etree serialization, pdfplumber extraction) are modelled at the
  granularity the claims need; each model notes the restriction of its
  domain where pandas behaviour is richer.
* A returned none models an exception escaping the modelled function.
* Mutual inductives replace nested List occurrences so that every
  recursion is structural and reduces inside the kernel.
-/

mutual
/-- JSON-like value as produced by the Python json module and carried in
DataFrame cells. -/
inductive Json where
  | null : Json
  | nan : Json
  | bool (b : Bool) : Json
  | num (n : Int) : Json
  | str (s : String) : Json
  | arr (xs : JsonList) : Json
  | obj (fs : JsonFields) : Json
deriving DecidableEq

inductive JsonList where
  | nil : JsonList
  | cons (hd : Json) (tl : JsonList) : JsonList
deriving DecidableEq

inductive JsonFields where
  | nil : JsonFields
  | cons (k : String) (v : Json) (tl : JsonFields) : JsonFields
deriving DecidableEq
end

def JsonList.ofList : List Json → JsonList
  | [] => .nil
  | x :: xs => .cons x (JsonList.ofList xs)

def JsonList.toList : JsonList → List Json
  | .nil => []
  | .cons x xs => x :: JsonList.toList xs

def JsonFields.ofList : List (String × Json) → JsonFields
  | [] => .nil
  | p :: ps => .cons p.1 p.2 (JsonFields.ofList ps)

def JsonFields.toList : JsonFields → List (String × Json)
  | .nil => []
  | .cons k v ps => (k, v) :: JsonFields.toList ps

/-- Column label of a DataFrame: pandas column labels relevant to the
source are strings (headers, record keys) or integers (ordinal columns,
app.py line 100). -/
inductive ColKey where
  | str (s : String)
  | int (n : Int)
deriving DecidableEq

/-- In-memory table: ordered column labels and rows of cells, each row
aligned positionally with the column list.  A TableSet is a
List DataFrame, exactly as the source passes around List of pandas
DataFrame values. -/
structure DataFrame where
  columns : List ColKey
  rows : List (List Json)
deriving DecidableEq

/-! ### String helpers modelling the Python primitives used by app.py -/

/-- Whitespace characters removed by the Python str.strip default. -/
def isPyWs (c : Char) : Bool :=
  c == ' ' || c == '\t' || c == '\n' || c == '\r' || c == '\x0b' || c == '\x0c'

/-- Model of the Python str.strip method with no arguments. -/
def pyStrip (s : String) : String :=
  ⟨((s.data.dropWhile isPyWs).reverse.dropWhile isPyWs).reverse⟩

/-- Model of the Python str.lower method restricted to ASCII case. -/
def pyLower (s : String) : String := ⟨s.data.map Char.toLower⟩

def splitChAux (c : Char) : List Char → List (List Char)
  | [] => [[]]
  | d :: rest =>
    let r := splitChAux c rest
    if d = c then [] :: r
    else
      match r with
      | [] => [[d]]
      | g :: gs => (d :: g) :: gs

/-- Split a string at every occurrence of a separator character. -/
def splitChar (c : Char) (s : String) : List String :=
  (splitChAux c s.data).map (fun l => (⟨l⟩ : String))

/-- Join strings with a separator. -/
def joinSep (sep : String) : List String → String
  | [] => ""
  | [x] => x
  | x :: y :: xs => x ++ sep ++ joinSep sep (y :: xs)

/-- Model of the Python str.startswith method. -/
def pyStartsWith (s pre : String) : Bool := pre.data.isPrefixOf s.data

/-- Keep the first occurrence of every element, dropping later repeats. -/
def dedupFirstAux (seen : List String) : List String → List String
  | [] => []
  | x :: xs =>
    if seen.contains x then dedupFirstAux seen xs
    else x :: dedupFirstAux (seen ++ [x]) xs

def dedupFirst (l : List String) : List String := dedupFirstAux [] l

/-- Lookup of a key in an association list, as Python key containment
and subscription on a dict viewed as its item list. -/
def alookup {α : Type} (k : String) : List (String × α) → Option α
  | [] => none
  | p :: ps => if p.1 = k then some p.2 else alookup k ps

/-! ### Python repr and str of parsed JSON values (used by the value
fallback on app.py line 56 and by cell rendering). -/

mutual
/-- Model of the Python repr of a json.loads result. -/
def pyRepr : Json → String
  | .null => "None"
  | .nan => "nan"
  | .bool b => if b then "True" else "False"
  | .num n => toString n
  | .str s => "\x27" ++ s ++ "\x27"
  | .arr xs => "[" ++ joinSep ", " (pyReprList xs) ++ "]"
  | .obj fs => "\x7b" ++ joinSep ", " (pyReprFields fs) ++ "\x7d"

def pyReprList : JsonList → List String
  | .nil => []
  | .cons x xs => pyRepr x :: pyReprList xs

def pyReprFields : JsonFields → List String
  | .nil => []
  | .cons k v fs => ("\x27" ++ k ++ "\x27: " ++ pyRepr v) :: pyReprFields fs
end

/-- Model of the Python str function on a json.loads result. -/
def pyStr : Json → String
  | .str s => s
  | v => pyRepr v

/-! ### Delimited-text decoder (app.py lines 25 to 27, pd.read_csv) and
delimited-text encoder (app.py lines 124 to 127, DataFrame.to_csv).

The pd.read_csv call is modelled for inputs without quoting: lines are
separated by a newline, blank lines are skipped (skip_blank_lines
default), the first remaining line is the header and every later line is
a data row split at commas.  Duplicate or empty header names are mangled
the way pandas mangles them.  The default column type inference is
modelled for the dtypes the claims exercise: a column whose every cell is
an integer literal becomes a column of numbers, any other column keeps
its cells as strings except that a missing-value token becomes the
missing value nan.  Columns that pandas would turn into floats or
booleans are outside the intended domain of the model: the one theorem
whose conclusion depends on cell values (C5) restricts its inputs by an
explicit hypothesis to the columns on which this model agrees with
pandas, and the round-trip theorem (C3) concludes only about the header
and the row count, which the pandas dtype choice does not affect.
Data rows whose field count differs from the header are outside the
model as well (pandas may error or create an index there) and map
to none. -/

/-- Grid of raw fields of a delimited-text input: non-blank lines split
at commas. -/
def csvGrid (text : String) : List (List String) :=
  ((splitChar '\n' text).filter (fun l => l ≠ "")).map (splitChar ',')

/-- Default missing-value tokens of pd.read_csv. -/
def naTokens : List String :=
  ["", "#N/A", "#N/A N/A", "#NA", "-1.#IND", "-1.#QNAN", "-NaN", "-nan",
   "1.#IND", "1.#QNAN", "<NA>", "N/A", "NA", "NULL", "NaN", "None",
   "n/a", "nan", "null"]

/-- Integer literal in the sense of the pandas parser: an optional sign
followed by one or more digits. -/
def isIntLit (s : String) : Bool :=
  match s.data with
  | [] => false
  | '-' :: ds => !ds.isEmpty && ds.all Char.isDigit
  | '+' :: ds => !ds.isEmpty && ds.all Char.isDigit
  | ds => ds.all Char.isDigit

def natOfDigits (ds : List Char) : Nat :=
  ds.foldl (fun a c => a * 10 + (c.toNat - '0'.toNat)) 0

/-- Integer value of an integer literal. -/
def parsePyInt (s : String) : Int :=
  match s.data with
  | '-' :: ds => -(Int.ofNat (natOfDigits ds))
  | '+' :: ds => Int.ofNat (natOfDigits ds)
  | ds => Int.ofNat (natOfDigits ds)

/-- Pandas header mangling: an empty name at position idx becomes
"Unnamed: idx", the k-th repeat of a name gets the suffix ".k". -/
def mangleName (seen : List String) (idx : Nat) (n : String) : String :=
  if n = "" then "Unnamed: " ++ toString idx
  else
    match seen.count n with
    | 0 => n
    | k => n ++ "." ++ toString k

def mangleAux : List String → List String → Nat → List String
  | [], _, _ => []
  | n :: rest, seen, idx => mangleName seen idx n :: mangleAux rest (seen ++ [n]) (idx + 1)

def mangle (ns : List String) : List String := mangleAux ns [] 0

/-- Type inference for one cell, given whether its whole column consists
of integer literals. -/
def inferCell (allInt : Bool) (c : String) : Json :=
  if allInt then .num (parsePyInt c)
  else if naTokens.contains c then .nan
  else .str c

/-- Whether every cell of column j of the data rows is an integer
literal. -/
def colAllInt (dataRows : List (List String)) (j : Nat) : Bool :=
  dataRows.all (fun r => isIntLit (r.getD j ""))

def inferRow (dataRows : List (List String)) (r : List String) : List Json :=
  r.enum.map (fun p => inferCell (colAllInt dataRows p.1) p.2)

/-- Model of pd.read_csv on the field grid of the input (app.py
line 26). -/
def read_csv_grid : List (List String) → Option DataFrame
  | [] => none
  | header :: dataRows =>
    if dataRows.all (fun r => r.length = header.length) then
      some ⟨(mangle header).map .str, dataRows.map (inferRow dataRows)⟩
    else none

/-- Model of the delimited-text decoder _read_csv on the raw text. -/
def read_csv (text : String) : Option DataFrame := read_csv_grid (csvGrid text)

/-- Whether to_csv must quote a field (csv.QUOTE_MINIMAL default). -/
def needsQuote (s : String) : Bool :=
  s.data.any (fun c => c == ',' || c == '"' || c == '\n' || c == '\r')

def dupQuotes (s : String) : String :=
  ⟨(s.data.map (fun c => if c = '"' then ['"', '"'] else [c])).flatten⟩

def csvQuote (s : String) : String :=
  if needsQuote s then "\"" ++ dupQuotes s ++ "\"" else s

/-- Rendering of one cell by DataFrame.to_csv before quoting: missing
values print as the empty string (na_rep default), anything else prints
via the Python str function. -/
def renderCell : Json → String
  | .null => ""
  | .nan => ""
  | v => pyStr v

/-- Rendering of a column label by to_csv and to_dict. -/
def keyStr : ColKey → String
  | .str s => s
  | .int n => toString n

/-- Field grid written by DataFrame.to_csv with index=False: the header
line followed by one line of rendered cells per row. -/
def to_csv_fields (df : DataFrame) : List (List String) :=
  df.columns.map keyStr :: df.rows.map (fun r => r.map renderCell)

/-- Model of DataFrame.to_csv with index=False (app.py line 126): each
field is quoted when needed, fields are joined by commas, lines by
newlines, with a trailing newline. -/
def to_csv (df : DataFrame) : String :=
  joinSep "\n" ((to_csv_fields df).map (fun r => joinSep "," (r.map csvQuote))) ++ "\n"

example : read_csv "a,b\nx,2\ny,3" =
    some ⟨[.str "a", .str "b"],
      [[.str "x", .num 2], [.str "y", .num 3]]⟩ := rfl

example : (read_csv "a\n01").map to_csv = some "a\n1\n" := rfl

/-! ### Structured-text decoder _read_json (app.py lines 33 to 57).

After the parse step (json.loads on the whole stream, else per-line
parses with failing lines dropped, lines 34 to 46), the decoder branches
on the shape of the parsed value (lines 48 to 57):
* a list goes through pd.json_normalize, which raises when an element is
  not a record and otherwise flattens each record with dot-joined keys;
* a record first tries the pd.DataFrame constructor (table of arrays)
  and falls back to pd.json_normalize of the single record when the
  constructor raises;
* any other value yields the single-row single-column value table.

The pd.DataFrame constructor on a dict is modelled as: succeed when at
least one field is a sequence and all sequence fields share one length
(scalar fields broadcast), raise otherwise.  Record-valued fields, which
pandas would align as Series by key, are outside the model and map to
the raising branch. -/

/-- Key join of pd.json_normalize with its default dot separator. -/
def joinKey (pre k : String) : String := if pre = "" then k else pre ++ "." ++ k

mutual
/-- Flattening of one record by pd.json_normalize: nested record fields
become dot-joined column paths, every other value (sequences included)
is kept as the cell value.  A key missing from a record yields the
pandas missing value. -/
def flattenFields (pre : String) : JsonFields → List (String × Json)
  | .nil => []
  | .cons k v tl => flattenOne (joinKey pre k) v ++ flattenFields pre tl

def flattenOne (key : String) : Json → List (String × Json)
  | .obj fs => flattenFields key fs
  | v => [(key, v)]
end

def flattenRecord (fs : JsonFields) : List (String × Json) := flattenFields "" fs

/-- DataFrame built from a list of records: the columns are the union of
the record keys in first-seen order, a key missing from a record yields
the pandas missing value nan. -/
def dfOfRecords (records : List (List (String × Json))) : DataFrame :=
  let cols := dedupFirst ((records.map (fun r => r.map Prod.fst)).flatten)
  ⟨cols.map .str,
   records.map (fun r => cols.map (fun c => (alookup c r).getD .nan))⟩

def allObjs : JsonList → Bool
  | .nil => true
  | .cons x tl => (match x with | .obj _ => true | _ => false) && allObjs tl

def recordsOf : JsonList → List JsonFields
  | .nil => []
  | .cons (.obj fs) tl => fs :: recordsOf tl
  | .cons _ tl => recordsOf tl

/-- Model of pd.json_normalize on a list (app.py line 49): raises unless
every element is a record. -/
def jsonNormalizeList (xs : JsonList) : Option DataFrame :=
  if allObjs xs then some (dfOfRecords ((recordsOf xs).map flattenRecord))
  else none

/-- Model of pd.json_normalize on a single record (app.py line 54). -/
def jsonNormalizeObj (fs : JsonFields) : DataFrame := dfOfRecords [flattenRecord fs]

def isObjJ : Json → Bool
  | .obj _ => true
  | _ => false

def arrLen? : Json → Option Nat
  | .arr xs => some xs.toList.length
  | _ => none

/-- Cell of a dict field at row index i: sequences contribute their i-th
element, scalar fields broadcast. -/
def cellAt (v : Json) (i : Nat) : Json :=
  match v with
  | .arr xs => xs.toList.getD i .null
  | v => v

/-- Model of the pd.DataFrame constructor on a dict (app.py line 52),
restricted as described in the section comment. -/
def pdDataFrameOfDict (fs : JsonFields) : Option DataFrame :=
  let fields := fs.toList
  if fields.isEmpty then some ⟨[], []⟩
  else if fields.any (fun p => isObjJ p.2) then none
  else
    match fields.filterMap (fun p => arrLen? p.2) with
    | [] => none
    | L :: rest =>
      if rest.all (· == L) then
        some ⟨fields.map (fun p => .str p.1),
          (List.range L).map (fun i => fields.map (fun p => cellAt p.2 i))⟩
      else none

/-- Shape dispatch of _read_json on the parsed value (app.py lines 48
to 57).  A none result models the pd.json_normalize exception escaping
the decoder. -/
def read_json : Json → Option (List DataFrame)
  | .arr xs => (jsonNormalizeList xs).map (fun df => [df])
  | .obj fs => some [(pdDataFrameOfDict fs).getD (jsonNormalizeObj fs)]
  | v => some [⟨[.str "value"], [[.str (pyStr v)]]⟩]

/-- Parse step of _read_json (app.py lines 34 to 46): the outcome of
json.loads on the whole stream, or on failure the per-line outcomes with
failing lines silently dropped, the collected list becoming the data. -/
def read_json_input (parsed : Option Json) (lineParses : List (Option Json)) :
    Option (List DataFrame) :=
  match parsed with
  | some v => read_json v
  | none => read_json (.arr (JsonList.ofList (lineParses.filterMap id)))

example : read_json (.arr (JsonList.ofList [.obj (.cons "a" (.num 1) .nil),
    .obj (.cons "a" (.num 2) .nil)])) =
    some [⟨[.str "a"], [[.num 1], [.num 2]]⟩] := rfl

example : read_json (.obj (.cons "a" (.arr (JsonList.ofList [.num 1, .num 2]))
    (.cons "b" (.arr (JsonList.ofList [.num 3, .num 4])) .nil))) =
    some [⟨[.str "a", .str "b"], [[.num 1, .num 3], [.num 2, .num 4]]⟩] := rfl

example : read_json (.arr .nil) = some [⟨[], []⟩] := rfl

/-! ### Markup decoder fallback _read_xml (app.py lines 59 to 82).

The primary path pd.read_xml (lines 61 to 63) is an external pandas
inference; when it raises, the source walks the element tree itself.
Every element whose child list is non-empty and whose children are all
childless contributes one row, built by a dict comprehension over its
children (tag to stripped text, later same-tag children overwriting the
value of earlier ones while keeping the first position).  The column set
is the sorted union of the discovered tags.  When no such row exists the
decoder falls back to a flat per-element dump with keys tag, text and
the attributes.  Only the fallback (the except branch) is modelled:
the claims under study are about it. -/

mutual
/-- Element of an xml.etree tree: tag, attributes in document order,
text, children. -/
inductive XElem where
  | mk (tag : String) (attrib : List (String × String))
       (text : Option String) (children : XList) : XElem
deriving DecidableEq

inductive XList where
  | nil : XList
  | cons (hd : XElem) (tl : XList) : XList
deriving DecidableEq
end

def XElem.tag : XElem → String
  | .mk t _ _ _ => t

def XElem.attrib : XElem → List (String × String)
  | .mk _ a _ _ => a

def XElem.text : XElem → Option String
  | .mk _ _ x _ => x

def XElem.children : XElem → XList
  | .mk _ _ _ cs => cs

def XList.toList : XList → List XElem
  | .nil => []
  | .cons c cs => c :: XList.toList cs

def XList.ofList : List XElem → XList
  | [] => .nil
  | c :: cs => .cons c (XList.ofList cs)

mutual
/-- Model of the iter method of an element: the element itself followed
by all descendants in document order (app.py line 70). -/
def iterElems : XElem → List XElem
  | .mk t a x cs => .mk t a x cs :: iterList cs

def iterList : XList → List XElem
  | .nil => []
  | .cons c cs => iterElems c ++ iterList cs
end

def childList (e : XElem) : List XElem := e.children.toList

def isChildless (e : XElem) : Bool := (childList e).isEmpty

/-- Condition of app.py line 71: the element has children and every
child is childless. -/
def isLeafParent (e : XElem) : Bool :=
  !(childList e).isEmpty && (childList e).all isChildless

/-- Insertion into a Python dict: an existing key keeps its position and
gets the new value, a new key is appended. -/
def pyDictInsert {α : Type} (d : List (String × α)) (k : String) (v : α) :
    List (String × α) :=
  if (alookup k d).isSome then d.map (fun p => if p.1 = k then (k, v) else p)
  else d ++ [(k, v)]

/-- Python dict built from a sequence of key-value pairs. -/
def pyDictOfPairs {α : Type} (ps : List (String × α)) : List (String × α) :=
  ps.foldl (fun d p => pyDictInsert d p.1 p.2) []

/-- Pair contributed by one child to the row dict comprehension of
app.py line 72. -/
def childEntry (c : XElem) : String × String :=
  (c.tag, pyStrip (c.text.getD ""))

/-- Row dict of a leaf-parent element (app.py line 72). -/
def leafParentRow (e : XElem) : List (String × String) :=
  pyDictOfPairs ((childList e).map childEntry)

/-- Elements selected by the loop of app.py lines 70 to 74. -/
def leafParents (root : XElem) : List XElem :=
  (iterElems root).filter isLeafParent

/-- Insertion sort on strings; on distinct elements it produces the
unique sorted order, matching the Python sorted builtin. -/
def insortStr (s : String) : List String → List String
  | [] => [s]
  | t :: ts => if s ≤ t then s :: t :: ts else t :: insortStr s ts

def sortStrs (l : List String) : List String := l.foldr insortStr []

/-- Sorted union of the row keys (app.py lines 69, 74 and 76). -/
def xmlCols (root : XElem) : List String :=
  sortStrs (dedupFirst
    (((leafParents root).map (fun e => (leafParentRow e).map Prod.fst)).flatten))

/-- Reindexing of a row dict against the column list by
pd.DataFrame(rows, columns=sorted(columns)): a missing key becomes the
pandas missing value nan. -/
def reindexRow (cols : List String) (r : List (String × String)) : List Json :=
  cols.map (fun c => match alookup c r with | some s => .str s | none => .nan)

/-- Record of the flat per-element dump (app.py line 80): tag and
stripped text, then the attributes spread over them dict-style. -/
def flatDumpRecord (e : XElem) : List (String × Json) :=
  pyDictOfPairs (("tag", Json.str e.tag) ::
    ("text", Json.str (pyStrip (e.text.getD ""))) ::
    e.attrib.map (fun p => (p.1, Json.str p.2)))

/-- Model of the except branch of _read_xml (app.py lines 64 to 82). -/
def read_xml_fallback (root : XElem) : DataFrame :=
  let rows := (leafParents root).map leafParentRow
  if rows.isEmpty then dfOfRecords ((iterElems root).map flatDumpRecord)
  else ⟨(xmlCols root).map .str, rows.map (reindexRow (xmlCols root))⟩

/-! ### Page-layout-document decoder _read_pdf (app.py lines 84 to 106),
with the extraction collaborator present (HAS_PDF true).

A page is modelled by what pdfplumber returns for it: the list of
extracted table grids (cells are optional strings) and the optional
plain text.  Grids are collected over the first five pages; an empty
grid is skipped, a grid whose first row is all-textual becomes a headed
table, any other grid becomes a table with ordinal integer columns.
The pd.DataFrame calls on grid rows are modelled with ragged rows padded
by missing values, raising (none) when the padded width differs from the
header width. -/

structure PdfPage where
  tables : List (List (List (Option String)))
  text : Option String
deriving DecidableEq

def gridWidth (rows : List (List (Option String))) : Nat :=
  rows.foldl (fun a r => max a r.length) 0

def padRow (w : Nat) (r : List (Option String)) : List Json :=
  (List.range w).map (fun j =>
    match r[j]? with
    | some (some s) => Json.str s
    | some none => Json.null
    | none => Json.nan)

/-- Model of the per-grid branch of app.py lines 93 to 101. -/
def gridToDf (t : List (List (Option String))) : Option DataFrame :=
  match t with
  | [] => none
  | first :: rest =>
    if first.all (fun c => c.isSome) then
      let header := first.map (fun c => c.getD "")
      if rest.isEmpty then some ⟨header.map .str, []⟩
      else if gridWidth rest = header.length then
        some ⟨header.map .str, rest.map (padRow header.length)⟩
      else none
    else
      let w := gridWidth (first :: rest)
      some ⟨(List.range w).map (fun j => .int (Int.ofNat j)),
        (first :: rest).map (padRow w)⟩

/-- Grid collection over the tables of one page (app.py lines 91 to
101): empty grids are skipped, a raising pd.DataFrame propagates. -/
def collectTables : List (List (List (Option String))) → Option (List DataFrame)
  | [] => some []
  | t :: ts =>
    if t.isEmpty then collectTables ts
    else
      match gridToDf t with
      | none => none
      | some df => (collectTables ts).map (fun l => df :: l)

def collectPages : List PdfPage → Option (List DataFrame)
  | [] => some []
  | p :: ps =>
    match collectTables p.tables with
    | none => none
    | some l => (collectPages ps).map (fun l2 => l ++ l2)

/-- Text-dump fallback of app.py lines 102 to 105: one DataFrame with a
single text column holding one row per page among the first three. -/
def pdfTextFallback (pages : List PdfPage) : DataFrame :=
  ⟨[.str "text"], (pages.take 3).map (fun p => [.str (p.text.getD "")])⟩

/-- Model of _read_pdf with pdfplumber available (app.py lines 88 to
106): grids of the first five pages, else the text-dump fallback. -/
def read_pdf (pages : List PdfPage) : Option (List DataFrame) :=
  match collectPages (pages.take 5) with
  | none => none
  | some dfs => some (if dfs.isEmpty then [pdfTextFallback pages] else dfs)

example : read_pdf [⟨[], some "p1"⟩, ⟨[], some "p2"⟩] =
    some [⟨[.str "text"], [[.str "p1"], [.str "p2"]]⟩] := rfl

/-! ### Encoder df_to_bytes (app.py lines 122 to 150).

The destination tag is lowercased; "csv" writes the first DataFrame with
to_csv, a tag starting with "excel" writes one sheet per DataFrame named
Sheet with its 1-based index, "json" dumps the per-DataFrame record
lists (unwrapped when there is exactly one DataFrame), "xml" builds a
dataset tree with one sheet element per DataFrame and serializes it.
Any other tag raises (none).  The workbook payload is modelled as its
sheet list, because the xlsx byte layout (a compressed archive with
embedded timestamps) is not a function of the TableSet alone.  An empty
TableSet raises on the csv path (indexing dfs[0]) and on the excel path
(a workbook needs at least one sheet), modelled by none. -/

/-- Row of a DataFrame as the dict produced by to_dict with
orient="records": keys paired with cells positionally.  Duplicate column
labels, which a Python dict would collapse, are outside the model. -/
def rowRecord (cols : List ColKey) (r : List Json) : List (ColKey × Json) :=
  cols.zip r

/-- Element tag of one cell (app.py line 145): a string key with
non-whitespace content is kept, anything else becomes "field". -/
def tagOf (k : ColKey) : String :=
  match k with
  | .str s => if pyStrip s = "" then "field" else s
  | .int _ => "field"

/-- Text assigned to a cell element (app.py line 147): empty for a
missing value, the Python str rendering otherwise. -/
def xmlCellText (v : Json) : String :=
  if v = .null then "" else pyStr v

/-- Cell element built by app.py lines 145 to 147. -/
def xmlCellOf (k : ColKey) (v : Json) : XElem :=
  .mk (tagOf k) [] (some (xmlCellText v)) .nil

/-- Row element built by app.py lines 143 to 147. -/
def xmlRowElem (cols : List ColKey) (r : List Json) : XElem :=
  .mk "row" [] none
    (XList.ofList ((rowRecord cols r).map (fun p => xmlCellOf p.1 p.2)))

def enumFrom1 {α : Type} (l : List α) : List (Nat × α) :=
  ((List.range l.length).map (fun i => i + 1)).zip l

/-- Sheet element built by app.py lines 141 to 147. -/
def xmlSheetElem (idx : Nat) (df : DataFrame) : XElem :=
  .mk "sheet" [("name", "Sheet" ++ toString idx)] none
    (XList.ofList (df.rows.map (xmlRowElem df.columns)))

/-- Dataset tree built by app.py lines 139 to 147. -/
def buildXmlTree (dfs : List DataFrame) : XElem :=
  .mk "dataset" [] none
    (XList.ofList ((enumFrom1 dfs).map (fun p => xmlSheetElem p.1 p.2)))

def escTextChar (c : Char) : List Char :=
  if c = '&' then "&amp;".data
  else if c = '<' then "&lt;".data
  else if c = '>' then "&gt;".data
  else [c]

/-- Escaping of element text by xml.etree serialization. -/
def escText (s : String) : String := ⟨(s.data.map escTextChar).flatten⟩

def escAttrChar (c : Char) : List Char :=
  if c = '"' then "&quot;".data else escTextChar c

/-- Escaping of attribute values by xml.etree serialization. -/
def escAttr (s : String) : String := ⟨(s.data.map escAttrChar).flatten⟩

def attrString (attrib : List (String × String)) : String :=
  (attrib.map (fun p => " " ++ p.1 ++ "=\"" ++ escAttr p.2 ++ "\"")).foldl
    (fun a b => a ++ b) ""

mutual
/-- Model of ET.tostring on one element: an element with no children and
no (or empty) text serializes in the short form. -/
def serializeX : XElem → String
  | .mk tag attrib text cs =>
    if (match cs with | .nil => true | _ => false) && text.getD "" = "" then
      "<" ++ tag ++ attrString attrib ++ " />"
    else
      "<" ++ tag ++ attrString attrib ++ ">" ++ escText (text.getD "") ++
        serializeXList cs ++ "</" ++ tag ++ ">"

def serializeXList : XList → String
  | .nil => ""
  | .cons c cs => serializeX c ++ serializeXList cs
end

/-- Payload of the xml branch (app.py line 148): the declaration emitted
by ET.tostring with encoding="utf-8", then the serialized tree. -/
def xmlPayload (dfs : List DataFrame) : String :=
  "<?xml version=\x271.0\x27 encoding=\x27utf-8\x27?>\n" ++
    serializeX (buildXmlTree dfs)

def jsonEscChar (c : Char) : List Char :=
  if c = '"' then ['\\', '"']
  else if c = '\\' then ['\\', '\\']
  else if c = '\n' then ['\\', 'n']
  else if c = '\t' then ['\\', 't']
  else if c = '\r' then ['\\', 'r']
  else [c]

/-- JSON string literal as written by json.dumps with
ensure_ascii=False, modelled for text without other control
characters. -/
def jsonStrLit (s : String) : String :=
  "\"" ++ (⟨(s.data.map jsonEscChar).flatten⟩ : String) ++ "\""

def spaces (n : Nat) : String := ⟨List.replicate n ' '⟩

mutual
/-- Model of json.dumps with ensure_ascii=False and indent=2. -/
def dumpsVal (ind : Nat) : Json → String
  | .null => "null"
  | .nan => "NaN"
  | .bool b => if b then "true" else "false"
  | .num n => toString n
  | .str s => jsonStrLit s
  | .arr xs =>
    (match xs with
     | .nil => "[]"
     | _ =>
       "[\n" ++
         joinSep ",\n" ((dumpsList (ind + 2) xs).map (fun it => spaces (ind + 2) ++ it)) ++
         "\n" ++ spaces ind ++ "]")
  | .obj fs =>
    (match fs with
     | .nil => "\x7b\x7d"
     | _ =>
       "\x7b\n" ++
         joinSep ",\n" ((dumpsFields (ind + 2) fs).map (fun it => spaces (ind + 2) ++ it)) ++
         "\n" ++ spaces ind ++ "\x7d")

def dumpsList (ind : Nat) : JsonList → List String
  | .nil => []
  | .cons x xs => dumpsVal ind x :: dumpsList ind xs

def dumpsFields (ind : Nat) : JsonFields → List String
  | .nil => []
  | .cons k v fs => (jsonStrLit k ++ ": " ++ dumpsVal ind v) :: dumpsFields ind fs
end

/-- Records of one DataFrame (to_dict with orient="records") as the
value handed to json.dumps; integer column labels print as their digit
strings, as Python dict keys do inside dumps. -/
def recordsJson (df : DataFrame) : Json :=
  .arr (JsonList.ofList (df.rows.map (fun r =>
    .obj (JsonFields.ofList ((rowRecord df.columns r).map (fun p => (keyStr p.1, p.2)))))))

/-- Payload of the json branch (app.py lines 135 to 136): the record
list of a single DataFrame is unwrapped, several DataFrames nest as a
list of record lists. -/
def jsonPayload (dfs : List DataFrame) : String :=
  match dfs with
  | [df] => dumpsVal 0 (recordsJson df)
  | _ => dumpsVal 0 (.arr (JsonList.ofList (dfs.map recordsJson)))

/-- Output payload: raw bytes, or the sheet list of a workbook. -/
inductive Encoded where
  | bytes (payload : String)
  | workbook (sheets : List (String × DataFrame))
deriving DecidableEq

/-- Sheets written by the excel branch (app.py lines 130 to 132). -/
def sheetsOf (dfs : List DataFrame) : List (String × DataFrame) :=
  (enumFrom1 dfs).map (fun p => ("Sheet" ++ toString p.1, p.2))

def excelMime : String :=
  "application/vnd.openxmlformats-officedocument.spreadsheetml.sheet"

/-- Model of df_to_bytes (app.py lines 122 to 150). -/
def df_to_bytes (dfs : List DataFrame) (output : String) : Option (Encoded × String) :=
  let o := pyLower output
  if o = "csv" then
    dfs.head?.map (fun d => (Encoded.bytes (to_csv d), "text/csv"))
  else if pyStartsWith o "excel" then
    if dfs.isEmpty then none else some (.workbook (sheetsOf dfs), excelMime)
  else if o = "json" then some (.bytes (jsonPayload dfs), "application/json")
  else if o = "xml" then some (.bytes (xmlPayload dfs), "application/xml")
  else none

example : df_to_bytes [⟨[.str "a"], [[.num 1], [.null]]⟩] "CSV" =
    some (.bytes "a\n1\n\n", "text/csv") := rfl

example : df_to_bytes [⟨[.str "a"], [[.null]]⟩] "XML" =
    some (.bytes ("<?xml version=\x271.0\x27 encoding=\x27utf-8\x27?>\n" ++
      "<dataset><sheet name=\"Sheet1\"><row><a /></row></sheet></dataset>"),
      "application/xml") := rfl

example : df_to_bytes [⟨[.str "a"], [[.num 1]]⟩] "JSON" =
    some (.bytes "[\n  \x7b\n    \"a\": 1\n  \x7d\n]", "application/json") := rfl

/-! ### Claims -/

/-- Shape predicate of the value fallback branch of _read_json: the
parsed value is neither a sequence nor a record. -/
def jsonIsScalar : Json → Bool
  | .arr _ => false
  | .obj _ => false
  | _ => true

/-- C7: structured-text decode of the two reference documents.  The
parse of the byte stream is the displayed Json value; the first input
takes the flatten-records path and yields one Table of two rows with
column a holding 1 and 2, the second takes the table-of-arrays path and
yields one Table of two rows with columns a and b. -/
theorem C7_reference_decodes :
    read_json (.arr (JsonList.ofList [.obj (.cons "a" (.num 1) .nil),
        .obj (.cons "a" (.num 2) .nil)])) =
      some [⟨[.str "a"], [[.num 1], [.num 2]]⟩] ∧
    read_json (.obj (.cons "a" (.arr (JsonList.ofList [.num 1, .num 2]))
        (.cons "b" (.arr (JsonList.ofList [.num 3, .num 4])) .nil))) =
      some [⟨[.str "a", .str "b"], [[.num 1, .num 3], [.num 2, .num 4]]⟩] :=
  ⟨rfl, rfl⟩

/-- C1, counterexample: the byte stream consisting of an empty sequence
document parses to Json.arr nil, none of the strategies yields a row,
yet the decoder returns a Table with zero rows and zero columns, not the
claimed single-row single-column fallback Table. -/
theorem C1_counterexample :
    read_json_input (some (.arr .nil)) [] =
      some [{ columns := [], rows := [] }] ∧
    (0 : Nat) ≠ 1 :=
  ⟨rfl, by decide⟩

/-- C1, amended: the structured-text decoder always returns a TableSet
of exactly one Table whenever it returns at all, and it returns the
single-row single-column textual-fallback Table exactly for parsed
values that are neither sequences nor records; a strategy that succeeds
structurally with zero rows keeps its zero-row Table. -/
theorem C1_single_table_and_scalar_fallback (data : Json) (dfs : List DataFrame)
    (h : read_json data = some dfs) :
    dfs.length = 1 ∧
    (jsonIsScalar data = true →
      dfs = [⟨[.str "value"], [[.str (pyStr data)]]⟩]) := by
  cases data with
  | arr xs =>
    cases hn : jsonNormalizeList xs with
    | none => simp [read_json, hn] at h
    | some df =>
      simp [read_json, hn] at h
      subst h
      simp [jsonIsScalar]
  | obj fs =>
    simp [read_json] at h
    subst h
    simp [jsonIsScalar]
  | null =>
    simp [read_json] at h
    subst h
    simp [jsonIsScalar]
  | nan =>
    simp [read_json] at h
    subst h
    simp [jsonIsScalar]
  | bool b =>
    simp [read_json] at h
    subst h
    simp [jsonIsScalar]
  | num n =>
    simp [read_json] at h
    subst h
    simp [jsonIsScalar]
  | str s =>
    simp [read_json] at h
    subst h
    simp [jsonIsScalar]

/-- Witness for C1: the decoder on the scalar document 5 returns exactly
one Table, the value-fallback Table. -/
theorem C1_witness :
    ([(⟨[.str "value"], [[.str "5"]]⟩ : DataFrame)] : List DataFrame).length = 1 ∧
    ([(⟨[.str "value"], [[.str "5"]]⟩ : DataFrame)] : List DataFrame) =
      [⟨[.str "value"], [[.str (pyStr (Json.num 5))]]⟩] :=
  ⟨(C1_single_table_and_scalar_fallback (Json.num 5) _ rfl).1,
   (C1_single_table_and_scalar_fallback (Json.num 5) _ rfl).2 rfl⟩

set_option linter.unusedVariables false in
/-- C10: a row key that is a non-empty string consisting only of
whitespace is also replaced by the placeholder tag "field" when its cell
element is created by the markup encoder. -/
theorem C10_whitespace_key_becomes_field (s : String) (v : Json)
    (h1 : s ≠ "") (h2 : pyStrip s = "") :
    (xmlCellOf (.str s) v).tag = "field" ∧ tagOf (.str s) = "field" := by
  constructor
  · simp [xmlCellOf, XElem.tag, tagOf, h2]
  · simp [tagOf, h2]

/-- Witness for C10 at the one-space key. -/
theorem C10_witness :
    (xmlCellOf (.str " ") Json.null).tag = "field" ∧ tagOf (.str " ") = "field" :=
  C10_whitespace_key_becomes_field " " Json.null (by decide) (by decide)

/-- C4, counterexample: the TableSet decoded from the delimited-text
input with header a,b and data row 1, carries a pandas missing value in
column b, and the markup encoder renders that cell as the literal text
nan, not as an empty text node: app.py line 147 blanks only None, and a
missing value is the float NaN, whose Python str rendering is nan. -/
theorem C4_counterexample :
    read_csv "a,b\n1," = some ⟨[.str "a", .str "b"], [[.num 1, .nan]]⟩ ∧
    df_to_bytes [⟨[.str "a", .str "b"], [[.num 1, .nan]]⟩] "XML" =
      some (.bytes ("<?xml version=\x271.0\x27 encoding=\x27utf-8\x27?>\n" ++
        "<dataset><sheet name=\"Sheet1\"><row><a>1</a><b>nan</b></row></sheet></dataset>"),
        "application/xml") ∧
    xmlCellText Json.nan = "nan" ∧ ("nan" : String) ≠ "" :=
  ⟨rfl, rfl, rfl, by decide⟩

/-- C4, amended: encoding a TableSet containing a null cell (a Python
None or a pandas missing value) never raises on the delimited-text or
markup path; the delimited-text encoder renders both kinds of null as
the empty string; the markup encoder renders a None cell as an empty
text node but a missing-value cell as the literal text nan; neither
output ever renders a null as the token null or the token None. -/
theorem C4_null_rendering (dfs : List DataFrame)
    (h : ∃ df ∈ dfs, ∃ row ∈ df.rows, Json.null ∈ row ∨ Json.nan ∈ row) :
    (∃ s, df_to_bytes dfs "CSV" = some (.bytes s, "text/csv")) ∧
    (∃ s, df_to_bytes dfs "XML" = some (.bytes s, "application/xml")) ∧
    renderCell Json.null = "" ∧ renderCell Json.nan = "" ∧
    (∀ k, (xmlCellOf k Json.null).text = some "") ∧
    (∀ k, (xmlCellOf k Json.nan).text = some "nan") ∧
    ("" : String) ≠ "null" ∧ ("" : String) ≠ "None" ∧
    ("nan" : String) ≠ "null" ∧ ("nan" : String) ≠ "None" := by
  refine ⟨?_, ⟨xmlPayload dfs, rfl⟩, rfl, rfl, fun k => rfl, fun k => rfl,
    by decide, by decide, by decide, by decide⟩
  cases dfs with
  | nil => simp at h
  | cons d rest => exact ⟨to_csv d, rfl⟩

/-- Witness for C4 at a one-row TableSet with a None cell. -/
theorem C4_witness :
    (∃ df ∈ [(⟨[.str "a"], [[Json.null]]⟩ : DataFrame)],
      ∃ row ∈ df.rows, Json.null ∈ row ∨ Json.nan ∈ row) ∧
    ((∃ s, df_to_bytes [(⟨[.str "a"], [[Json.null]]⟩ : DataFrame)] "CSV" =
        some (.bytes s, "text/csv")) ∧
     (∃ s, df_to_bytes [(⟨[.str "a"], [[Json.null]]⟩ : DataFrame)] "XML" =
        some (.bytes s, "application/xml")) ∧
     renderCell Json.null = "" ∧ renderCell Json.nan = "" ∧
     (∀ k, (xmlCellOf k Json.null).text = some "") ∧
     (∀ k, (xmlCellOf k Json.nan).text = some "nan") ∧
     ("" : String) ≠ "null" ∧ ("" : String) ≠ "None" ∧
     ("nan" : String) ≠ "null" ∧ ("nan" : String) ≠ "None") := by
  have h : ∃ df ∈ [(⟨[.str "a"], [[Json.null]]⟩ : DataFrame)],
      ∃ row ∈ df.rows, Json.null ∈ row ∨ Json.nan ∈ row := by
    exact ⟨⟨[.str "a"], [[Json.null]]⟩, by simp, [Json.null], by simp,
      Or.inl (by simp)⟩
  exact ⟨h, C4_null_rendering _ h⟩

/-- Helper: the sheet names of the excel branch are Sheet with the
1-based position. -/
theorem sheetsOf_names (dfs : List DataFrame) :
    (sheetsOf dfs).map Prod.fst =
      (List.range dfs.length).map (fun i => "Sheet" ++ toString (i + 1)) := by
  unfold sheetsOf enumFrom1
  rw [List.map_map]
  have h1 : (Prod.fst ∘ fun p : Nat × DataFrame => ("Sheet" ++ toString p.1, p.2)) =
      (fun p : Nat × DataFrame => "Sheet" ++ toString p.1) := rfl
  rw [h1]
  have h2 : ∀ (l1 : List Nat) (l2 : List DataFrame), l1.length = l2.length →
      (l1.zip l2).map (fun p => "Sheet" ++ toString p.1) =
        l1.map (fun i => "Sheet" ++ toString i) := by
    intro l1
    induction l1 with
    | nil => intro l2 h; simp
    | cons x xs ih =>
      intro l2 h
      cases l2 with
      | nil => simp at h
      | cons y ys =>
        simp only [List.zip_cons_cons, List.map_cons]
        rw [ih ys (by simpa using h)]
  rw [h2 _ _ (by simp), List.map_map]
  rfl

/-- Helper: the sheet contents of the excel branch are the DataFrames in
order. -/
theorem sheetsOf_tables (dfs : List DataFrame) :
    (sheetsOf dfs).map Prod.snd = dfs := by
  unfold sheetsOf enumFrom1
  rw [List.map_map]
  have h1 : (Prod.snd ∘ fun p : Nat × DataFrame => ("Sheet" ++ toString p.1, p.2)) =
      (Prod.snd : Nat × DataFrame → DataFrame) := rfl
  rw [h1]
  exact List.map_snd_zip _ _ (by simp)

/-- C2: on a TableSet of two or more Tables the delimited-text encoder
emits exactly the first Table (its columns as the header) and ignores
the rest, and the workbook encoder emits one sheet per Table, the sheet
at 0-based position i named Sheet followed by i+1 and holding the i-th
Table. -/
theorem C2_first_table_and_sheets (d1 d2 : DataFrame) (ds : List DataFrame) :
    df_to_bytes (d1 :: d2 :: ds) "CSV" = df_to_bytes [d1] "CSV" ∧
    df_to_bytes (d1 :: d2 :: ds) "CSV" = some (.bytes (to_csv d1), "text/csv") ∧
    (to_csv_fields d1).head? = some (d1.columns.map keyStr) ∧
    df_to_bytes (d1 :: d2 :: ds) "Excel (.xlsx)" =
      some (.workbook (sheetsOf (d1 :: d2 :: ds)), excelMime) ∧
    (sheetsOf (d1 :: d2 :: ds)).map Prod.fst =
      (List.range (d1 :: d2 :: ds).length).map (fun i => "Sheet" ++ toString (i + 1)) ∧
    (sheetsOf (d1 :: d2 :: ds)).map Prod.snd = d1 :: d2 :: ds :=
  ⟨rfl, rfl, rfl, rfl, sheetsOf_names _, sheetsOf_tables _⟩

/-- Helper: pandas header mangling leaves a list of non-empty pairwise
distinct names untouched. -/
theorem mangleAux_of_fresh (ns : List String) (seen : List String) (idx : Nat)
    (hne : ∀ n ∈ ns, n ≠ "") (hnd : ns.Nodup) (hseen : ∀ n ∈ ns, n ∉ seen) :
    mangleAux ns seen idx = ns := by
  induction ns generalizing seen idx with
  | nil => rfl
  | cons n rest ih =>
    have h1 : n ≠ "" := hne n (by simp)
    have h2 : n ∉ seen := hseen n (by simp)
    have hc : seen.count n = 0 := List.count_eq_zero.mpr h2
    have hname : mangleName seen idx n = n := by
      unfold mangleName
      rw [if_neg h1, hc]
    have hrest : mangleAux rest (seen ++ [n]) (idx + 1) = rest := by
      apply ih
      · intro m hm
        exact hne m (List.mem_cons_of_mem _ hm)
      · exact (List.nodup_cons.mp hnd).2
      · intro m hm
        simp only [List.mem_append, List.mem_singleton]
        push_neg
        exact ⟨hseen m (List.mem_cons_of_mem _ hm),
          fun he => (List.nodup_cons.mp hnd).1 (he ▸ hm)⟩
    show mangleName seen idx n :: mangleAux rest (seen ++ [n]) (idx + 1) = n :: rest
    rw [hname, hrest]

theorem mangle_of_fresh (ns : List String)
    (hne : ∀ n ∈ ns, n ≠ "") (hnd : ns.Nodup) : mangle ns = ns :=
  mangleAux_of_fresh ns [] 0 hne hnd (by simp)

/-- C3, counterexample: the valid delimited-text input with header a and
the single data row 01 round-trips to the data row 1, because
pd.read_csv infers an integer column; the data rows are not preserved. -/
theorem C3_counterexample :
    (read_csv "a\n01").map to_csv_fields = some [["a"], ["1"]] ∧
    csvGrid "a\n01" = [["a"], ["01"]] ∧
    (["1"] : List String) ≠ ["01"] :=
  ⟨rfl, rfl, by decide⟩

/-- C3, amended: for a valid delimited-text input (no blank lines, field
counts matching the header, header names non-empty and pairwise
distinct) with header row H and N data rows, decode followed by encode
yields output whose header row is again H and which has exactly N data
rows; the contents of data cells may be changed by the default numeric
type inference of the decoder. -/
theorem C3_roundtrip_header_and_count (header : List String)
    (dataRows : List (List String)) (df : DataFrame)
    (hread : read_csv_grid (header :: dataRows) = some df)
    (hne : ∀ n ∈ header, n ≠ "") (hnd : header.Nodup) :
    (to_csv_fields df).head? = some header ∧
    (to_csv_fields df).length = (header :: dataRows).length := by
  have hread2 : (if dataRows.all (fun r => r.length = header.length) then
      some (⟨(mangle header).map .str, dataRows.map (inferRow dataRows)⟩ : DataFrame)
    else none) = some df := hread
  split at hread2
  · injection hread2 with hdf
    subst hdf
    constructor
    · show some (((mangle header).map ColKey.str).map keyStr) = some header
      rw [List.map_map]
      have hcomp : (keyStr ∘ ColKey.str) = id := funext (fun s => rfl)
      rw [hcomp, List.map_id, mangle_of_fresh header hne hnd]
    · simp [to_csv_fields]
  · exact absurd hread2 (by simp)

/-- Witness for C3 at the input grid with header a and data row 01. -/
theorem C3_witness :
    (to_csv_fields ⟨[.str "a"], [[.num 1]]⟩).head? = some ["a"] ∧
    (to_csv_fields ⟨[.str "a"], [[.num 1]]⟩).length =
      ([["a"], ["01"]] : List (List String)).length :=
  C3_roundtrip_header_and_count ["a"] [["01"]] _ rfl (by decide) (by decide)

/-- Helper: when every grid of the list is empty, grid collection
yields no DataFrame. -/
theorem collectTables_all_empty (ts : List (List (List (Option String))))
    (h : ∀ t ∈ ts, t = []) : collectTables ts = some [] := by
  induction ts with
  | nil => rfl
  | cons t ts ih =>
    have ht : t = [] := h t (by simp)
    subst ht
    have hstep : collectTables ([] :: ts) = collectTables ts := rfl
    rw [hstep]
    exact ih (fun q hq => h q (List.mem_cons_of_mem _ hq))

/-- Helper: when every grid of every page is empty, page collection
yields no DataFrame. -/
theorem collectPages_all_empty (ps : List PdfPage)
    (h : ∀ p ∈ ps, ∀ t ∈ p.tables, t = []) : collectPages ps = some [] := by
  induction ps with
  | nil => rfl
  | cons p ps ih =>
    rw [show collectPages (p :: ps) = (match collectTables p.tables with
        | none => none
        | some l => (collectPages ps).map (fun l2 => l ++ l2)) from rfl,
      collectTables_all_empty _ (h p (by simp)),
      ih (fun q hq => h q (List.mem_cons_of_mem _ hq))]
    rfl

/-- C6, counterexample: a two-page document with no extracted grids
yields a TableSet with exactly one Table, not the claimed one Table per
scanned page. -/
theorem C6_counterexample :
    (read_pdf [⟨[], some "p1"⟩, ⟨[], some "p2"⟩]).map List.length = some 1 ∧
    (1 : Nat) ≠ 2 :=
  ⟨rfl, by decide⟩

/-- C6, amended: when zero grids are extracted across the scanned pages
(the first five), the decoder returns a TableSet of exactly one Table
whose single text column holds one row per scanned page among the first
three, each row carrying that page's extracted plain text or the empty
string. -/
theorem C6_text_dump_fallback (pages : List PdfPage)
    (h : ∀ p ∈ pages.take 5, ∀ t ∈ p.tables, t = []) :
    read_pdf pages = some [pdfTextFallback pages] ∧
    (pdfTextFallback pages).rows =
      (pages.take 3).map (fun p => [Json.str (p.text.getD "")]) ∧
    (pdfTextFallback pages).columns = [ColKey.str "text"] := by
  refine ⟨?_, rfl, rfl⟩
  unfold read_pdf
  rw [collectPages_all_empty _ h]
  rfl

/-- Witness for C6 at a one-page document with no grids. -/
theorem C6_witness :
    read_pdf [⟨[], some "p1"⟩] = some [pdfTextFallback [⟨[], some "p1"⟩]] ∧
    (pdfTextFallback [⟨[], some "p1"⟩]).rows =
      ([(⟨[], some "p1"⟩ : PdfPage)].take 3).map (fun p => [Json.str (p.text.getD "")]) ∧
    (pdfTextFallback [⟨[], some "p1"⟩]).columns = [ColKey.str "text"] :=
  C6_text_dump_fallback [⟨[], some "p1"⟩] (by simp)

/-! ### Helper lemmas on association lists and last elements, for the
duplicate-tag behaviour of the markup decoder fallback. -/

theorem getLast?_append_singleton {α : Type} (l : List α) (a : α) :
    (l ++ [a]).getLast? = some a := by
  rw [← List.head?_reverse, List.reverse_append]
  simp

theorem getLast?_isSome_of_ne_nil {α : Type} (l : List α) (h : l ≠ []) :
    ∃ a, l.getLast? = some a := by
  induction l using List.reverseRecOn with
  | nil => exact absurd rfl h
  | append_singleton l p _ => exact ⟨p, getLast?_append_singleton l p⟩

theorem getLast?_map_comm {α β : Type} (f : α → β) (l : List α) :
    (l.map f).getLast? = l.getLast?.map f := by
  rw [← List.head?_reverse, ← List.map_reverse, ← List.head?_reverse]
  cases l.reverse with
  | nil => rfl
  | cons x xs => rfl

theorem filter_map_comm {α β : Type} (f : α → β) (p : β → Bool) (l : List α) :
    (l.map f).filter p = (l.filter (fun a => p (f a))).map f := by
  induction l with
  | nil => rfl
  | cons x xs ih =>
    simp only [List.map_cons, List.filter_cons]
    cases hp : p (f x) <;> simp [hp, ih]

theorem alookup_eq_none_iff {α : Type} (k : String) (d : List (String × α)) :
    alookup k d = none ↔ k ∉ d.map Prod.fst := by
  induction d with
  | nil => simp [alookup]
  | cons p rest ih =>
    by_cases hp : p.1 = k
    · simp [alookup, hp]
    · have hstep : alookup k (p :: rest) = alookup k rest := by simp [alookup, hp]
      rw [hstep, ih]
      constructor
      · intro hk
        simp only [List.map_cons, List.mem_cons]
        push_neg
        exact ⟨fun h => hp h.symm, hk⟩
      · intro hk
        simp only [List.map_cons, List.mem_cons] at hk
        push_neg at hk
        exact hk.2

theorem alookup_map_replace {α : Type} (k : String) (v : α) (k2 : String)
    (d : List (String × α)) :
    alookup k2 (d.map (fun p => if p.1 = k then (k, v) else p)) =
      if k2 = k then (alookup k d).map (fun _ => v) else alookup k2 d := by
  induction d with
  | nil => by_cases h2 : k2 = k <;> simp [alookup, h2]
  | cons p rest ih =>
    simp only [List.map_cons]
    by_cases hpk : p.1 = k
    · rw [if_pos hpk]
      by_cases h2 : k2 = k
      · subst h2
        rw [if_pos rfl]
        rw [show alookup k2 ((k2, v) ::
            rest.map (fun q => if q.1 = k2 then (k2, v) else q)) = some v from by
          simp [alookup]]
        rw [show alookup k2 (p :: rest) = some p.2 from by simp [alookup, hpk]]
        rfl
      · rw [if_neg h2]
        have hkk2 : ¬k = k2 := fun h => h2 h.symm
        have hpk2 : ¬p.1 = k2 := fun h => h2 ((hpk.symm.trans h).symm)
        rw [show alookup k2 ((k, v) ::
            rest.map (fun q => if q.1 = k then (k, v) else q)) =
            alookup k2 (rest.map (fun q => if q.1 = k then (k, v) else q)) from by
          simp [alookup, hkk2]]
        rw [ih, if_neg h2]
        rw [show alookup k2 (p :: rest) = alookup k2 rest from by
          simp [alookup, hpk2]]
    · rw [if_neg hpk]
      by_cases hp2 : p.1 = k2
      · have h2 : ¬k2 = k := fun h => hpk (hp2.trans h)
        rw [if_neg h2]
        rw [show alookup k2 (p ::
            rest.map (fun q => if q.1 = k then (k, v) else q)) = some p.2 from by
          simp [alookup, hp2]]
        rw [show alookup k2 (p :: rest) = some p.2 from by simp [alookup, hp2]]
      · rw [show alookup k2 (p ::
            rest.map (fun q => if q.1 = k then (k, v) else q)) =
            alookup k2 (rest.map (fun q => if q.1 = k then (k, v) else q)) from by
          simp [alookup, hp2]]
        rw [ih]
        by_cases h2 : k2 = k
        · rw [if_pos h2, if_pos h2]
          rw [show alookup k (p :: rest) = alookup k rest from by
            simp [alookup, hpk]]
        · rw [if_neg h2, if_neg h2]
          rw [show alookup k2 (p :: rest) = alookup k2 rest from by
            simp [alookup, hp2]]

theorem alookup_append_none {α : Type} (d : List (String × α)) (k : String)
    (v : α) (k2 : String) (h : alookup k d = none) :
    alookup k2 (d ++ [(k, v)]) = if k2 = k then some v else alookup k2 d := by
  induction d with
  | nil =>
    by_cases h2 : k2 = k
    · subst h2
      simp [alookup]
    · have hkk2 : ¬k = k2 := fun hh => h2 hh.symm
      simp [alookup, h2, hkk2]
  | cons p rest ih =>
    have hpk : ¬p.1 = k := by
      intro hp
      simp [alookup, hp] at h
    have hrest : alookup k rest = none := by
      simpa [alookup, hpk] using h
    by_cases hp2 : p.1 = k2
    · have h2 : k2 ≠ k := fun hh => hpk (hh ▸ hp2)
      simp [alookup, hp2, h2]
    · simp [alookup, hp2, ih hrest]

theorem alookup_pyDictInsert {α : Type} (d : List (String × α)) (k : String)
    (v : α) (k2 : String) :
    alookup k2 (pyDictInsert d k v) = if k2 = k then some v else alookup k2 d := by
  unfold pyDictInsert
  split
  · rename_i hs
    rw [alookup_map_replace]
    by_cases h2 : k2 = k
    · subst h2
      rw [if_pos rfl, if_pos rfl]
      obtain ⟨w, hw⟩ := Option.isSome_iff_exists.mp hs
      rw [hw]
      rfl
    · rw [if_neg h2, if_neg h2]
  · rename_i hs
    have hnone : alookup k d = none := by
      cases hval : alookup k d with
      | none => rfl
      | some w => rw [hval] at hs; simp at hs
    exact alookup_append_none d k v k2 hnone

theorem keys_pyDictInsert {α : Type} (d : List (String × α)) (k : String) (v : α) :
    (pyDictInsert d k v).map Prod.fst =
      if (alookup k d).isSome then d.map Prod.fst else d.map Prod.fst ++ [k] := by
  unfold pyDictInsert
  split
  · rw [List.map_map]
    apply List.map_congr_left
    intro p _
    by_cases hp : p.1 = k
    · simp [hp]
    · simp [hp]
  · simp

theorem keys_nodup_pyDictInsert {α : Type} (d : List (String × α)) (k : String)
    (v : α) (h : (d.map Prod.fst).Nodup) :
    ((pyDictInsert d k v).map Prod.fst).Nodup := by
  rw [keys_pyDictInsert]
  split
  · exact h
  · rename_i hs
    have hnone : alookup k d = none := by
      cases hval : alookup k d with
      | none => rfl
      | some w => rw [hval] at hs; simp at hs
    have hk : k ∉ d.map Prod.fst := (alookup_eq_none_iff k d).mp hnone
    simp [List.nodup_append, h, hk]

theorem alookup_foldl_insert {α : Type} (ps : List (String × α))
    (d : List (String × α)) (k : String) :
    alookup k (ps.foldl (fun d2 p => pyDictInsert d2 p.1 p.2) d) =
      ps.foldl (fun acc p => if p.1 = k then some p.2 else acc) (alookup k d) := by
  induction ps generalizing d with
  | nil => rfl
  | cons p ps ih =>
    rw [List.foldl_cons, List.foldl_cons, ih, alookup_pyDictInsert]
    congr 1
    by_cases hp : p.1 = k
    · rw [if_pos hp, if_pos hp.symm]
    · rw [if_neg hp, if_neg (fun h : k = p.1 => hp h.symm)]

theorem keys_nodup_foldl_insert {α : Type} (ps : List (String × α))
    (d : List (String × α)) (h : (d.map Prod.fst).Nodup) :
    (((ps.foldl (fun d2 p => pyDictInsert d2 p.1 p.2) d)).map Prod.fst).Nodup := by
  induction ps generalizing d with
  | nil => exact h
  | cons p ps ih =>
    rw [List.foldl_cons]
    exact ih _ (keys_nodup_pyDictInsert d p.1 p.2 h)

theorem foldl_lastWins {α : Type} (k : String) (ps : List (String × α))
    (a0 : Option α) :
    ps.foldl (fun acc p => if p.1 = k then some p.2 else acc) a0 =
      ((ps.filter (fun p => p.1 == k)).getLast?).elim a0 (fun p => some p.2) := by
  induction ps using List.reverseRecOn with
  | nil => rfl
  | append_singleton l p ih =>
    rw [List.foldl_append, List.foldl_cons, List.foldl_nil, List.filter_append]
    by_cases hp : p.1 = k
    · have hf : List.filter (fun q => q.1 == k) [p] = [p] := by simp [hp]
      rw [hf, getLast?_append_singleton]
      simp [hp]
    · have hf : List.filter (fun q => q.1 == k) [p] = [] := by simp [hp]
      rw [hf, List.append_nil, if_neg hp, ih]

/-- C9: in the leaf-parent fallback of the markup decoder, a leaf-parent
element with several same-tag children produces a row holding a single
column for that tag (the key set of the row dict has no duplicates and
contains the tag), whose value is the stripped text of the last such
child; and the rows of the resulting Table are exactly the reindexed row
dicts of the leaf-parent elements in document order. -/
theorem C9_last_same_tag_child_wins (root e : XElem) (t : String)
    (hmem : e ∈ leafParents root)
    (ht : t ∈ (childList e).map XElem.tag) :
    ((leafParentRow e).map Prod.fst).Nodup ∧
    t ∈ (leafParentRow e).map Prod.fst ∧
    (∃ c, ((childList e).filter (fun c => c.tag == t)).getLast? = some c ∧
      alookup t (leafParentRow e) = some (pyStrip (c.text.getD ""))) ∧
    (read_xml_fallback root).rows =
      (leafParents root).map (fun e2 => reindexRow (xmlCols root) (leafParentRow e2)) := by
  have hrow : leafParentRow e = ((childList e).map childEntry).foldl
      (fun d2 p => pyDictInsert d2 p.1 p.2) [] := rfl
  have hl1 : alookup t (leafParentRow e) =
      ((((childList e).map childEntry).filter (fun p => p.1 == t)).getLast?).elim none
        (fun p => some p.2) := by
    rw [hrow, alookup_foldl_insert]
    exact foldl_lastWins t _ _
  have hfm : ((childList e).map childEntry).filter (fun p => p.1 == t) =
      ((childList e).filter (fun c => c.tag == t)).map childEntry := by
    rw [filter_map_comm]
    rfl
  obtain ⟨c0, hc0, hc0t⟩ := List.mem_map.mp ht
  have hfne : (childList e).filter (fun c => c.tag == t) ≠ [] := by
    intro h0
    have hcmem : c0 ∈ (childList e).filter (fun c => c.tag == t) :=
      List.mem_filter.mpr ⟨hc0, by simp [hc0t]⟩
    rw [h0] at hcmem
    exact absurd hcmem (by simp)
  obtain ⟨c, hc⟩ := getLast?_isSome_of_ne_nil _ hfne
  have hlook : alookup t (leafParentRow e) = some (pyStrip (c.text.getD "")) := by
    rw [hl1, hfm, getLast?_map_comm, hc]
    rfl
  have hnd : ((leafParentRow e).map Prod.fst).Nodup := by
    rw [hrow]
    exact keys_nodup_foldl_insert _ [] (by simp)
  have hmemk : t ∈ (leafParentRow e).map Prod.fst := by
    by_contra hng
    have hnone := (alookup_eq_none_iff t (leafParentRow e)).mpr hng
    rw [hnone] at hlook
    exact absurd hlook (by simp)
  have hne : leafParents root ≠ [] := by
    intro h0
    rw [h0] at hmem
    exact absurd hmem (by simp)
  have hemp : ((leafParents root).map leafParentRow).isEmpty = false := by
    cases hlp : leafParents root with
    | nil => exact absurd hlp hne
    | cons a l => simp
  have hrows : (read_xml_fallback root).rows =
      (leafParents root).map (fun e2 => reindexRow (xmlCols root) (leafParentRow e2)) := by
    show (DataFrame.rows (if ((leafParents root).map leafParentRow).isEmpty then
        dfOfRecords ((iterElems root).map flatDumpRecord)
      else ⟨(xmlCols root).map .str,
        ((leafParents root).map leafParentRow).map (reindexRow (xmlCols root))⟩)) = _
    rw [hemp]
    show ((leafParents root).map leafParentRow).map (reindexRow (xmlCols root)) = _
    rw [List.map_map]
    rfl
  exact ⟨hnd, hmemk, ⟨c, hc, hlook⟩, hrows⟩

/-- Leaf-parent sample element with two children sharing the tag x,
used as the witness input of the duplicate-tag claim. -/
def sampleDupRoot : XElem :=
  .mk "rec" [] none
    (.cons (.mk "x" [] (some " a ") .nil)
      (.cons (.mk "x" [] (some "b") .nil) .nil))

/-- Witness for C9 at a record whose two children both carry the tag x:
the row keeps one column x whose value is the stripped text b of the
last child. -/
theorem C9_witness :
    ((leafParentRow sampleDupRoot).map Prod.fst).Nodup ∧
    "x" ∈ (leafParentRow sampleDupRoot).map Prod.fst ∧
    (∃ c, ((childList sampleDupRoot).filter (fun c => c.tag == "x")).getLast? = some c ∧
      alookup "x" (leafParentRow sampleDupRoot) = some (pyStrip (c.text.getD ""))) ∧
    (read_xml_fallback sampleDupRoot).rows =
      (leafParents sampleDupRoot).map
        (fun e2 => reindexRow (xmlCols sampleDupRoot) (leafParentRow e2)) :=
  C9_last_same_tag_child_wins sampleDupRoot sampleDupRoot "x" (by decide) (by decide)
